import Mathlib

/-!
Verification of the json-schema-validator core (`json_schema_validator/validator.py`)
against its natural-language specification.

The validator is embedded shallowly: JSON values become the inductive type `JVal`,
the two mutable frame stacks of the `Validator` object become an explicit state
record `St` threaded through every check, and Python exceptions become the
`Except PyExn` error channel.  An exception in Python propagates without undoing
mutations, so each check returns the final state *alongside* the outcome
(`VRes = Except PyExn Unit × St`) instead of using a state monad that drops the
state on error.  Recursion of `_validate` is metered by a fuel parameter; fuel
exhaustion models the host RecursionError on adversarially deep input.

The repository files `json_schema_validator/schema.py` (the Schema view) and
`json_schema_validator/misc.py` (`NUMERIC_TYPES`) are not available; those two
pieces are modelled from the spec, as marked in their doc comments.  Everything
else is translated directly from `validator.py`.
-/

/-- A JSON value: the closed variant of the spec's Value Model (spec section 3).
Python represents decoded JSON numbers as `int` or `float`; floats are modelled
as rationals, which is faithful for every literal the claims exercise. -/
inductive JVal where
  | null
  | bool (b : Bool)
  | int (n : Int)
  | float (q : Rat)
  | str (s : String)
  | arr (elems : List JVal)
  | obj (fields : List (String × JVal))

/-- Association-list lookup, modelling Python `d[k]` / `k in d` on a dict whose
keys are unique (the Value Model guarantees unique keys). -/
def lookupField : List (String × JVal) → String → Option JVal
  | [], _ => none
  | (k, v) :: rest, key => if k == key then some v else lookupField rest key

/-- Field access on an object value; `none` for a missing key or a non-object. -/
def getField (v : JVal) (key : String) : Option JVal :=
  match v with
  | JVal.obj kvs => lookupField kvs key
  | _ => none

/-- Numeric view used by Python `==`: booleans compare as the integers 0/1 and
`int`/`float` compare by value (`True == 1`, `1 == 1.0` in the host). -/
def pyNumVal : JVal → Option Rat
  | JVal.bool b => some (if b then 1 else 0)
  | JVal.int n => some (n : Rat)
  | JVal.float q => some q
  | _ => none

/-- Python `==` on atoms: `None == None`, and numeric values (bool/int/float)
compare by numeric value.  Mixed atom kinds are unequal. -/
def pyAtomEq (a b : JVal) : Bool :=
  match a, b with
  | JVal.null, JVal.null => true
  | x, y =>
    match pyNumVal x, pyNumVal y with
    | some q, some r => q == r
    | _, _ => false

mutual
/-- Python `==` on JSON values: strings by text, lists pointwise, dicts by key
set and per-key value equality, everything else via `pyAtomEq`. -/
def pyEq : JVal → JVal → Bool
  | JVal.str s, JVal.str t => s == t
  | JVal.arr xs, JVal.arr ys => pyEqList xs ys
  | JVal.obj xs, JVal.obj ys => xs.length == ys.length && pyEqFields xs ys
  | a, b => pyAtomEq a b

/-- Pointwise Python `==` on lists of equal length. -/
def pyEqList : List JVal → List JVal → Bool
  | [], [] => true
  | x :: xs, y :: ys => pyEq x y && pyEqList xs ys
  | _, _ => false

/-- Every key of the first dict is present in the second with an equal value. -/
def pyEqFields : List (String × JVal) → List (String × JVal) → Bool
  | [], _ => true
  | (k, v) :: rest, ys =>
    (match lookupField ys k with
     | some w => pyEq v w
     | none => false) && pyEqFields rest ys
end

/-- The runtime classes `JSON_TYPE_MAP` maps schema type names to
(`validator.py` lines 40-47).  `pyNumeric` stands for `NUMERIC_TYPES`. -/
inductive PyClass where
  | pyStr
  | pyNumeric
  | pyInt
  | pyDict
  | pyList
  | pyNone
deriving DecidableEq, Repr

/-- Host `isinstance` over the classes of `JSON_TYPE_MAP`.  In the host language
`bool` is a subclass of `int`, so `isinstance(True, int)` holds and booleans
also satisfy the numeric classes.  `NUMERIC_TYPES` itself lives in
`json_schema_validator/misc.py`, which is not in the sources; modelled from the
spec as the integer and floating-point classes (spec section 4.1), which makes
`pyNumeric` accept `int`, `float`, and (through the host subclassing) `bool`. -/
def isInstance : JVal → PyClass → Bool
  | JVal.str _, PyClass.pyStr => true
  | JVal.bool _, PyClass.pyNumeric => true
  | JVal.int _, PyClass.pyNumeric => true
  | JVal.float _, PyClass.pyNumeric => true
  | JVal.bool _, PyClass.pyInt => true
  | JVal.int _, PyClass.pyInt => true
  | JVal.obj _, PyClass.pyDict => true
  | JVal.arr _, PyClass.pyList => true
  | JVal.null, PyClass.pyNone => true
  | _, _ => false

/-- `JSON_TYPE_MAP` (`validator.py` lines 40-47); `any` and `boolean` are
handled inside `_validate_type` before the map is consulted. -/
def typeMap : String → Option PyClass
  | "string" => some PyClass.pyStr
  | "number" => some PyClass.pyNumeric
  | "integer" => some PyClass.pyInt
  | "object" => some PyClass.pyDict
  | "array" => some PyClass.pyList
  | "null" => some PyClass.pyNone
  | _ => none

/-- Exceptions the run can raise.  `validationError` carries the two path
expressions (the two free-text messages of the Python error are not modelled);
`notImplemented` is the engine-fatal unsupported-feature condition;
`schemaError` is the Schema view's shape error; `hostError` stands for a host
exception that is not part of the validator's own taxonomy (for instance the
TypeError raised by calling `_report_error` with a misspelled keyword
argument); `outOfFuel` models host recursion exhaustion. -/
inductive PyExn where
  | validationError (objectExpr schemaExpr : String)
  | notImplemented (msg : String)
  | hostError
  | schemaError
  | outOfFuel
deriving DecidableEq, Repr

/-- One frame stack: head is the top (most recently pushed) frame.  Python's
`list.append`/`pop` work at the end; consing at the head models that with
`[:-1]` becoming `tail`. -/
structure St where
  schemaStack : List (JVal × String)
  objStack : List (JVal × String)

/-- Outcome of a check together with the final stacks: Python exceptions
propagate without unwinding the mutations done so far. -/
abbrev VRes := Except PyExn Unit × St

def pushSchema (s : JVal) (seg : String) (st : St) : St :=
  { st with schemaStack := (s, seg) :: st.schemaStack }

def popSchema (st : St) : St :=
  { st with schemaStack := st.schemaStack.tail }

def pushObj (v : JVal) (seg : String) (st : St) : St :=
  { st with objStack := (v, seg) :: st.objStack }

def popObj (st : St) : St :=
  { st with objStack := st.objStack.tail }

/-- Current schema (`self._schema`): top of the schema stack. -/
def topSchema (st : St) : JVal :=
  match st.schemaStack with
  | (s, _) :: _ => s
  | [] => JVal.null

/-- Current object (`self._object`): top of the object stack. -/
def topObj (st : St) : JVal :=
  match st.objStack with
  | (v, _) :: _ => v
  | [] => JVal.null

/-- Path expression: the concatenation of every segment from root to top
(`_get_object_expression` / `_get_schema_expression`). -/
def pathExpr (stack : List (JVal × String)) : String :=
  (stack.reverse.map Prod.snd).foldl (fun a b => a ++ b) ""

/-- `_report_error` (`validator.py` lines 132-154): raise a `ValidationError`
carrying both path expressions, the schema one extended by the suffix. -/
def reportError (suffix : String) (st : St) : VRes :=
  (Except.error (PyExn.validationError (pathExpr st.objStack)
      (pathExpr st.schemaStack ++ suffix)), st)

/-- Sequencing: run the continuation only if the previous step succeeded;
an exception propagates together with the state it left behind. -/
def thenDo (r : VRes) (f : St → VRes) : VRes :=
  match r with
  | (Except.ok _, st) => f st
  | e => e

/-- Modelled from the spec: the `Schema` constructor of
`json_schema_validator/schema.py` (not in the sources) wraps an object-typed
JSON value and rejects anything else with a schema-shape error
(spec sections 3 and 6). -/
def mkSchemaE : JVal → Except PyExn JVal
  | JVal.obj kvs => Except.ok (JVal.obj kvs)
  | _ => Except.error PyExn.schemaError

/-- Allowed primitive type names of the spec's type map plus `any` and
`boolean`. -/
def typeNameOk (t : String) : Bool :=
  t == "any" || t == "string" || t == "number" || t == "integer" ||
  t == "object" || t == "array" || t == "null" || t == "boolean"

/-- Element of a `type` list: a primitive name or a nested schema object. -/
def typeElemOk : JVal → Bool
  | JVal.str t => typeNameOk t
  | JVal.obj _ => true
  | _ => false

/-- Modelled from the spec: the Schema view's `type` field — a single name, a
list of names or nested schemas, or absent meaning `any` (spec section 3);
other shapes are a schema-shape error. -/
def schemaTypeE (s : JVal) : Except PyExn (List JVal) :=
  match getField s "type" with
  | none => Except.ok [JVal.str "any"]
  | some (JVal.str t) =>
    if typeNameOk t then Except.ok [JVal.str t] else Except.error PyExn.schemaError
  | some (JVal.arr l) =>
    if l.all typeElemOk then Except.ok l else Except.error PyExn.schemaError
  | some _ => Except.error PyExn.schemaError

/-- Modelled from the spec: `properties` — a mapping from names to nested
schemas, default empty (spec section 3). -/
def schemaPropertiesE (s : JVal) : Except PyExn (List (String × JVal)) :=
  match getField s "properties" with
  | none => Except.ok []
  | some (JVal.obj kvs) => Except.ok kvs
  | some _ => Except.error PyExn.schemaError

/-- Modelled from the spec: `additionalProperties` — a schema, the literal
`false`, or absent meaning the permissive empty schema (spec section 3). -/
def schemaAdditionalPropsE (s : JVal) : Except PyExn JVal :=
  match getField s "additionalProperties" with
  | none => Except.ok (JVal.obj [])
  | some (JVal.bool false) => Except.ok (JVal.bool false)
  | some (JVal.obj kvs) => Except.ok (JVal.obj kvs)
  | some _ => Except.error PyExn.schemaError

/-- Modelled from the spec: `items` — a schema, an ordered list of per-position
schemas, or absent meaning the permissive empty schema (spec section 3). -/
def schemaItemsE (s : JVal) : Except PyExn JVal :=
  match getField s "items" with
  | none => Except.ok (JVal.obj [])
  | some (JVal.obj kvs) => Except.ok (JVal.obj kvs)
  | some (JVal.arr l) => Except.ok (JVal.arr l)
  | some _ => Except.error PyExn.schemaError

/-- Modelled from the spec: `enum` — a list of allowed values, or absent
(spec section 3). -/
def schemaEnumE (s : JVal) : Except PyExn (Option (List JVal)) :=
  match getField s "enum" with
  | none => Except.ok none
  | some (JVal.arr l) => Except.ok (some l)
  | some _ => Except.error PyExn.schemaError

/-- Modelled from the spec: `format` — a string tag or absent
(spec section 3). -/
def schemaFormatE (s : JVal) : Except PyExn (Option String) :=
  match getField s "format" with
  | none => Except.ok none
  | some (JVal.str f) => Except.ok (some f)
  | some _ => Except.error PyExn.schemaError

/-- Modelled from the spec: `pattern` — a regular-expression string or absent
(spec section 3). -/
def schemaPatternE (s : JVal) : Except PyExn (Option String) :=
  match getField s "pattern" with
  | none => Except.ok none
  | some (JVal.str p) => Except.ok (some p)
  | some _ => Except.error PyExn.schemaError

/-- Modelled from the spec: `requires` — a string property name or a nested
schema, defaulting to the empty dict that `_validate_requires` tests for
(spec sections 3 and 4.6). -/
def schemaRequiresE (s : JVal) : Except PyExn JVal :=
  match getField s "requires" with
  | none => Except.ok (JVal.obj [])
  | some (JVal.str p) => Except.ok (JVal.str p)
  | some (JVal.obj kvs) => Except.ok (JVal.obj kvs)
  | some _ => Except.error PyExn.schemaError

/-- Modelled from the spec: `optional` — a boolean, default `false`
(spec section 3). -/
def schemaOptionalE (s : JVal) : Except PyExn Bool :=
  match getField s "optional" with
  | none => Except.ok false
  | some (JVal.bool b) => Except.ok b
  | some _ => Except.error PyExn.schemaError

/-- Fields of the current object (the callers hold `assert isinstance(obj, dict)`). -/
def objFields : JVal → List (String × JVal)
  | JVal.obj kvs => kvs
  | _ => []

/-- Elements of the current object (the caller holds `assert isinstance(obj, list)`). -/
def arrElems : JVal → List JVal
  | JVal.arr xs => xs
  | _ => []

/-- Numeric value of a decimal digit character. -/
def digitVal (c : Char) : Nat := c.toNat - 48

/-- Exactly four digits, as `strptime`'s `%Y` directive requires. -/
def takeDigits4 : List Char → Option (Nat × List Char)
  | a :: b :: c :: d :: rest =>
    if a.isDigit && b.isDigit && c.isDigit && d.isDigit then
      some (((digitVal a * 10 + digitVal b) * 10 + digitVal c) * 10 + digitVal d, rest)
    else none
  | _ => none

/-- One or two digits, greedily, as the `%m`/`%d`/`%H`/`%M`/`%S` directives
match.  Greediness is equivalent to the regex with backtracking here because
every following literal in the format is a non-digit. -/
def takeDigits2 : List Char → Option (Nat × List Char)
  | a :: b :: rest =>
    if a.isDigit then
      if b.isDigit then some (digitVal a * 10 + digitVal b, rest)
      else some (digitVal a, b :: rest)
    else none
  | [a] => if a.isDigit then some (digitVal a, []) else none
  | [] => none

/-- Consume one expected literal character. -/
def expectChar (ch : Char) : List Char → Option (List Char)
  | c :: rest => if c == ch then some rest else none
  | [] => none

/-- Day count of a month under the proleptic Gregorian rules the host datetime
module uses. -/
def daysInMonth (y m : Nat) : Nat :=
  if m == 2 then
    if y % 4 == 0 && (y % 100 != 0 || y % 400 == 0) then 29 else 28
  else if m == 4 || m == 6 || m == 9 || m == 11 then 30
  else 31

/-- Model of host `datetime.datetime.strptime(s, "%Y-%m-%dT%H:%M:%SZ")`
succeeding: the whole string matches the fixed pattern and the fields form a
valid datetime (year at least 1, month 1-12, day within the month, hour 0-23,
minute and second 0-59). -/
def parseDateTimeZ (s : String) : Bool :=
  match takeDigits4 s.toList with
  | none => false
  | some (y, r1) =>
    match expectChar '-' r1 with
    | none => false
    | some r2 =>
      match takeDigits2 r2 with
      | none => false
      | some (mo, r3) =>
        match expectChar '-' r3 with
        | none => false
        | some r4 =>
          match takeDigits2 r4 with
          | none => false
          | some (d, r5) =>
            match expectChar 'T' r5 with
            | none => false
            | some r6 =>
              match takeDigits2 r6 with
              | none => false
              | some (h, r7) =>
                match expectChar ':' r7 with
                | none => false
                | some r8 =>
                  match takeDigits2 r8 with
                  | none => false
                  | some (mi, r9) =>
                    match expectChar ':' r9 with
                    | none => false
                    | some r10 =>
                      match takeDigits2 r10 with
                      | none => false
                      | some (sec, r11) =>
                        match expectChar 'Z' r11 with
                        | none => false
                        | some r12 =>
                          r12.isEmpty && 1 ≤ y && 1 ≤ mo && mo ≤ 12 &&
                          1 ≤ d && d ≤ daysInMonth y mo && h ≤ 23 &&
                          mi ≤ 59 && sec ≤ 59

/-- Character-list version of textual anchoring at position 0. -/
def matchesAtStart : List Char → List Char → Bool
  | [], _ => true
  | _ :: _, [] => false
  | c :: cs, d :: ds => c == d && matchesAtStart cs ds

/-- Model of host `re.match(ptn, s)` succeeding, for the fragment of patterns
without regex metacharacters: such a pattern matches at position 0 exactly when
it is a textual prefix of the string (not necessarily the whole string). -/
def reMatch (ptn s : String) : Bool :=
  matchesAtStart ptn.toList s.toList

/-- Model of host `re.compile(p)` succeeding, for the same metacharacter-free
fragment as `reMatch`: every such pattern compiles. -/
def regexCompiles (_p : String) : Bool := true

/-- The unsupported-keyword conditions of `_report_unsupported`
(`validator.py` lines 178-199), as one boolean on the schema node. -/
def declaresUnsupported (s : JVal) : Bool :=
  (getField s "minimum").isSome ||
  (getField s "maximum").isSome ||
  (match getField s "minItems" with
   | some v => !pyEq v (JVal.int 0)
   | none => false) ||
  (getField s "maxItems").isSome ||
  (match getField s "uniqueItems" with
   | some v => !pyEq v (JVal.bool false)
   | none => false) ||
  (match getField s "minLength" with
   | some v => !pyEq v (JVal.int 0)
   | none => false) ||
  (getField s "maxLength").isSome ||
  (getField s "contentEncoding").isSome ||
  (match getField s "divisibleBy" with
   | some v => !pyEq v (JVal.int 1)
   | none => false) ||
  (getField s "disallow").isSome

/-- `_report_unsupported` (`validator.py` lines 178-199): abort with
`NotImplementedError` when the current schema node declares an unsupported
keyword (defaults: `minItems` 0, `uniqueItems` false, `minLength` 0,
`divisibleBy` 1; the rest default to absent). -/
def vReportUnsupported (st : St) : VRes :=
  let s := topSchema st
  if (getField s "minimum").isSome then
    (Except.error (PyExn.notImplemented "minimum is not supported"), st)
  else if (getField s "maximum").isSome then
    (Except.error (PyExn.notImplemented "maximum is not supported"), st)
  else if (match getField s "minItems" with
           | some v => !pyEq v (JVal.int 0)
           | none => false) then
    (Except.error (PyExn.notImplemented "minItems is not supported"), st)
  else if (getField s "maxItems").isSome then
    (Except.error (PyExn.notImplemented "maxItems is not supported"), st)
  else if (match getField s "uniqueItems" with
           | some v => !pyEq v (JVal.bool false)
           | none => false) then
    (Except.error (PyExn.notImplemented "uniqueItems is not supported"), st)
  else if (match getField s "minLength" with
           | some v => !pyEq v (JVal.int 0)
           | none => false) then
    (Except.error (PyExn.notImplemented "minLength is not supported"), st)
  else if (getField s "maxLength").isSome then
    (Except.error (PyExn.notImplemented "maxLength is not supported"), st)
  else if (getField s "contentEncoding").isSome then
    (Except.error (PyExn.notImplemented "contentEncoding is not supported"), st)
  else if (match getField s "divisibleBy" with
           | some v => !pyEq v (JVal.int 1)
           | none => false) then
    (Except.error (PyExn.notImplemented "divisibleBy is not supported"), st)
  else if (getField s "disallow").isSome then
    (Except.error (PyExn.notImplemented "disallow is not supported"), st)
  else (Except.ok (), st)

/-- The loop of `_validate_type` (`validator.py` lines 204-236): alternatives
in declared order; `any` returns; `boolean` accepts exactly the two boolean
constants and otherwise reports immediately; a nested schema object is pushed
as a schema frame against the same object, validated, popped, and the loop
stops; a primitive name falls to the next alternative when `isinstance` fails.
Exhausting the alternatives reports a type mismatch with suffix `.type`. -/
def vTypeLoop (visit : St → VRes) : List JVal → St → VRes
  | [], st => reportError ".type" st
  | ty :: rest, st =>
    match ty with
    | JVal.str t =>
      if t == "any" then (Except.ok (), st)
      else if t == "boolean" then
        match topObj st with
        | JVal.bool _ => (Except.ok (), st)
        | _ => reportError ".type" st
      else
        match typeMap t with
        | some cls =>
          if isInstance (topObj st) cls then (Except.ok (), st)
          else vTypeLoop visit rest st
        | none => (Except.error PyExn.hostError, st)
    | JVal.obj kvs =>
      match visit (pushSchema (JVal.obj kvs) ".type" st) with
      | (Except.ok _, st2) => (Except.ok (), popSchema st2)
      | (Except.error e, st2) => (Except.error e, st2)
    | _ => (Except.error PyExn.hostError, st)

/-- `_validate_type` (`validator.py` lines 201-236).  An empty alternative
list makes the Python `else` clause format an unbound loop variable, a host
NameError, modelled as `hostError`. -/
def vType (visit : St → VRes) (st : St) : VRes :=
  match schemaTypeE (topSchema st) with
  | Except.error e => (Except.error e, st)
  | Except.ok [] => (Except.error PyExn.hostError, st)
  | Except.ok tys => vTypeLoop visit tys st

/-- Enclosing object: `self._object_stack[-2][0]`, defined when the stack has
at least two frames. -/
def parentObj (st : St) : JVal :=
  match st.objStack with
  | _ :: (p, _) :: _ => p
  | _ => JVal.null

/-- `_validate_requires` (`validator.py` lines 398-440).  The default empty
dict skips the check; with fewer than two object frames the failure has suffix
`.requires`; the string form tests key presence in the enclosing object; the
schema form runs an isolated visit on a snapshot made of the full schema stack
plus a `.requires` frame and the object stack minus its innermost frame,
discarding the snapshot's final state but propagating its exception. -/
def vRequires (visit : St → VRes) (st : St) : VRes :=
  match schemaRequiresE (topSchema st) with
  | Except.error e => (Except.error e, st)
  | Except.ok req =>
    if pyEq req (JVal.obj []) then (Except.ok (), st)
    else if st.objStack.length < 2 then reportError ".requires" st
    else
      match req with
      | JVal.str prop =>
        match parentObj st with
        | JVal.obj kvs =>
          if (lookupField kvs prop).isSome then (Except.ok (), st)
          else reportError ".requires" st
        | _ => reportError ".requires" st
      | JVal.obj kvs =>
        (((visit (St.mk ((JVal.obj kvs, ".requires") :: st.schemaStack)
            st.objStack.tail)).1 : Except PyExn Unit), st)
      | _ => (Except.ok (), st)

/-- The loop of `_validate_properties` (`validator.py` lines 289-303): for each
declared property push its schema frame; a present key gets an object frame and
a recursive visit; an absent key fails with suffix `.optional` unless the
pushed sub-schema is optional.  Frames are popped only on the non-raising
paths, exactly as in the source. -/
def vPropsLoop (visit : St → VRes) : List (String × JVal) → St → VRes
  | [], st => (Except.ok (), st)
  | (prop, psJson) :: rest, st =>
    match mkSchemaE psJson with
    | Except.error e => (Except.error e, st)
    | Except.ok ps =>
      let st1 := pushSchema ps (".properties." ++ prop) st
      match getField (topObj st) prop with
      | some v =>
        match visit (pushObj v ("." ++ prop) st1) with
        | (Except.ok _, st3) => vPropsLoop visit rest (popSchema (popObj st3))
        | (Except.error e, st3) => (Except.error e, st3)
      | none =>
        match schemaOptionalE ps with
        | Except.error e => (Except.error e, st1)
        | Except.ok true => vPropsLoop visit rest (popSchema st1)
        | Except.ok false => reportError ".optional" st1

/-- `_validate_properties` (`validator.py` lines 285-303). -/
def vProperties (visit : St → VRes) (st : St) : VRes :=
  match schemaPropertiesE (topSchema st) with
  | Except.error e => (Except.error e, st)
  | Except.ok props => vPropsLoop visit props st

/-- The disallowing loop of `_validate_additional_properties`
(`validator.py` lines 311-320): report the first object key absent from
`properties`, with suffix `.additionalProperties`. -/
def vAPFalseLoop (props : List (String × JVal)) :
    List (String × JVal) → St → VRes
  | [], st => (Except.ok (), st)
  | (k, _) :: rest, st =>
    if (lookupField props k).isSome then vAPFalseLoop props rest st
    else reportError ".additionalProperties" st

/-- The permissive loop of `_validate_additional_properties`
(`validator.py` lines 322-328): with the `additionalProperties` schema frame
already pushed, validate every key of the object against it, then pop. -/
def vAPLoop (visit : St → VRes) : List (String × JVal) → St → VRes
  | [], st => (Except.ok (), popSchema st)
  | (k, v) :: rest, st =>
    match visit (pushObj v ("." ++ k) st) with
    | (Except.ok _, st2) => vAPLoop visit rest (popObj st2)
    | (Except.error e, st2) => (Except.error e, st2)

/-- `_validate_additional_properties` (`validator.py` lines 305-328). -/
def vAdditionalProperties (visit : St → VRes) (st : St) : VRes :=
  match schemaAdditionalPropsE (topSchema st) with
  | Except.error e => (Except.error e, st)
  | Except.ok (JVal.bool false) =>
    match schemaPropertiesE (topSchema st) with
    | Except.error e => (Except.error e, st)
    | Except.ok props => vAPFalseLoop props (objFields (topObj st)) st
  | Except.ok ap =>
    vAPLoop visit (objFields (topObj st)) (pushSchema ap ".additionalProperties" st)

/-- `_validate_enum` (`validator.py` lines 330-342): if `enum` is declared the
current value must equal (Python `==`) one of the listed values, else the
failure has suffix `.enum`. -/
def vEnum (st : St) : VRes :=
  match schemaEnumE (topSchema st) with
  | Except.error e => (Except.error e, st)
  | Except.ok none => (Except.ok (), st)
  | Except.ok (some vs) =>
    if vs.any (fun w => pyEq (topObj st) w) then (Except.ok (), st)
    else reportError ".enum" st

/-- `_validate_format` (`validator.py` lines 258-283), with the source's
control flow kept: the `date-time` branch either reports (suffix `.format`) or
falls through, after which the unsupported-format `else` that is attached only
to the `regex` test raises `NotImplementedError` even for `date-time`; in the
`regex` branch a failing compile calls `_report_error` with the misspelled
keyword `schema_suffic`, a host TypeError; `strptime` on a non-string is a
host TypeError as well. -/
def vFormatR (st : St) : Except PyExn Unit :=
  match schemaFormatE (topSchema st) with
  | Except.error e => Except.error e
  | Except.ok none => Except.ok ()
  | Except.ok (some fmt) =>
    match (if fmt == "date-time" then
             match topObj st with
             | JVal.str s =>
               if parseDateTimeZ s then Except.ok ()
               else (reportError ".format" st).1
             | _ => Except.error PyExn.hostError
           else Except.ok ()) with
    | Except.error e => Except.error e
    | Except.ok _ =>
      if fmt == "regex" then
        match topObj st with
        | JVal.str s =>
          if regexCompiles s then Except.ok ()
          else Except.error PyExn.hostError
        | _ => Except.error PyExn.hostError
      else Except.error (PyExn.notImplemented "format is not supported")

/-- The format check never touches the stacks; its outcome is `vFormatR`. -/
def vFormat (st : St) : VRes := (vFormatR st, st)

/-- `_validate_pattern` (`validator.py` lines 238-256): absent pattern or a
non-string value passes; a match at position 0 passes; otherwise the source
calls `_report_error` with the misspelled keyword `sechema_suffic`, so the run
dies with a host TypeError instead of the intended validation failure. -/
def vPattern (st : St) : VRes :=
  match schemaPatternE (topSchema st) with
  | Except.error e => (Except.error e, st)
  | Except.ok none => (Except.ok (), st)
  | Except.ok (some ptn) =>
    match topObj st with
    | JVal.str s =>
      if reMatch ptn s then (Except.ok (), st)
      else (Except.error PyExn.hostError, st)
    | _ => (Except.ok (), st)

/-- The homogeneous loop of `_validate_items` (`validator.py` lines 352-358):
with the `.items` schema frame pushed, validate each element, then pop. -/
def vItemsHomLoop (visit : St → VRes) (i : Nat) : List JVal → St → VRes
  | [], st => (Except.ok (), popSchema st)
  | x :: rest, st =>
    match visit (pushObj x ("[" ++ toString i ++ "]") st) with
    | (Except.ok _, st2) => vItemsHomLoop visit (i + 1) rest (popObj st2)
    | (Except.error e, st2) => (Except.error e, st2)

/-- The tuple loop of `_validate_items` (`validator.py` lines 384-396): the
element at a position inside the schema list gets that positional schema under
segment `items[i]`; an element beyond it gets the `additionalProperties` fill
value under segment `.additionalProperties`; each iteration pushes a schema
frame and an object frame and pops both on the non-raising path. -/
def vItemsTupleLoop (visit : St → VRes) (ap : JVal) (i : Nat) :
    List JVal → List JVal → St → VRes
  | [], _, st => (Except.ok (), st)
  | x :: xrest, ss, st =>
    let sJson := match ss with
      | s :: _ => s
      | [] => ap
    let seg := match ss with
      | _ :: _ => "items[" ++ toString i ++ "]"
      | [] => ".additionalProperties"
    match mkSchemaE sJson with
    | Except.error e => (Except.error e, st)
    | Except.ok sch =>
      match visit (pushObj x ("[" ++ toString i ++ "]") (pushSchema sch seg st)) with
      | (Except.ok _, st2) => vItemsTupleLoop visit ap (i + 1) xrest ss.tail (popObj (popSchema st2))
      | (Except.error e, st2) => (Except.error e, st2)

/-- `_validate_items` (`validator.py` lines 344-396).  The default empty
schema skips the check; a single schema runs the homogeneous loop; a list of
schemas first fails a shorter document array (suffix `.items`), then fails a
length mismatch when `additionalProperties` is the literal `false` (suffix
`.items`), then runs the tuple loop with `additionalProperties` as the fill
value (the fill value argument is evaluated in the equal-length case too,
mirroring the source's call). -/
def vItems (visit : St → VRes) (st : St) : VRes :=
  match schemaItemsE (topSchema st) with
  | Except.error e => (Except.error e, st)
  | Except.ok items =>
    if pyEq items (JVal.obj []) then (Except.ok (), st)
    else
      match items with
      | JVal.obj kvs =>
        vItemsHomLoop visit 0 (arrElems (topObj st))
          (pushSchema (JVal.obj kvs) ".items" st)
      | JVal.arr schemas =>
        let xs := arrElems (topObj st)
        if xs.length < schemas.length then reportError ".items" st
        else if xs.length ≠ schemas.length then
          match schemaAdditionalPropsE (topSchema st) with
          | Except.error e => (Except.error e, st)
          | Except.ok (JVal.bool false) => reportError ".items" st
          | Except.ok ap => vItemsTupleLoop visit ap 0 xs schemas st
        else
          match schemaAdditionalPropsE (topSchema st) with
          | Except.error e => (Except.error e, st)
          | Except.ok ap => vItemsTupleLoop visit ap 0 xs schemas st
      | _ => (Except.error PyExn.schemaError, st)

/-- The variant dispatch of `_validate` (`validator.py` lines 121-129):
properties then additionalProperties for a mapping, items for an array,
enum then format then pattern for anything else. -/
def vBranch (visit : St → VRes) (o : JVal) (st : St) : VRes :=
  match o with
  | JVal.obj _ => thenDo (vProperties visit st) (vAdditionalProperties visit)
  | JVal.arr _ => vItems visit st
  | _ => thenDo (vEnum st) fun stC => thenDo (vFormat stC) vPattern

/-- One pass of `_validate` (`validator.py` lines 117-130), parameterised by
the visit used for recursive descent: type check, requires check, the variant
branch on the object bound at entry (`obj = self._object`), and finally the
unsupported-keyword guard. -/
def visitOnce (visit : St → VRes) (st : St) : VRes :=
  thenDo (vType visit st) fun stA =>
  thenDo (vRequires visit stA) fun stB =>
  thenDo (vBranch visit (topObj st) stB) fun stD =>
  vReportUnsupported stD

/-- The recursive core visit `_validate`, metered by fuel; exhausted fuel is
the host recursion limit. -/
def pyValidate : Nat → St → VRes
  | 0, st => (Except.error PyExn.outOfFuel, st)
  | Nat.succ n, st => visitOnce (pyValidate n) st

/-- `Validator.validate` (`validator.py` lines 73-100) composed with
`validate_toplevel` (lines 108-115) on a fresh instance: wrap the schema
(raising the schema-shape error for a non-object), push the root frame pair
with segments `schema` and `object`, run the core visit, and report the
outcome. -/
def validateDoc (fuel : Nat) (schemaJson doc : JVal) : Except PyExn Unit :=
  match mkSchemaE schemaJson with
  | Except.error e => Except.error e
  | Except.ok s => (pyValidate fuel (St.mk [(s, "schema")] [(doc, "object")])).1

/-- A check preserves the stacks on every successful exit. -/
def PresOk (f : St → VRes) : Prop :=
  ∀ st st2, f st = (Except.ok (), st2) → st2 = st

/-- The value is one of the two boolean constants. -/
def isBoolVal : JVal → Bool
  | JVal.bool _ => true
  | _ => false

/-- Schema declaring only `format: date-time`. -/
def exFormatSchema : JVal := JVal.obj [("format", JVal.str "date-time")]

/-- Schema declaring the type alternation `["string", "number"]`. -/
def exTypeListSchema : JVal :=
  JVal.obj [("type", JVal.arr [JVal.str "string", JVal.str "number"])]

/-- Schema declaring only the literal pattern `a`. -/
def exPatternSchema : JVal := JVal.obj [("pattern", JVal.str "a")]

/-- Schemas declaring a single primitive type. -/
def exBoolSchema : JVal := JVal.obj [("type", JVal.str "boolean")]

def exIntSchema : JVal := JVal.obj [("type", JVal.str "integer")]

def exNumSchema : JVal := JVal.obj [("type", JVal.str "number")]

/-- Schema with one required (non-optional) property `a`. -/
def exPropsSchema : JVal := JVal.obj [("properties", JVal.obj [("a", JVal.obj [])])]

/-- Root state for validating the empty object against `exPropsSchema`. -/
def exStC4 : St := St.mk [(exPropsSchema, "schema")] [(JVal.obj [], "object")]

/-- Schema with property `a` and `additionalProperties: false`. -/
def exAPFalseSchema : JVal :=
  JVal.obj [("properties", JVal.obj [("a", JVal.obj [])]),
            ("additionalProperties", JVal.bool false)]

/-- Schema whose property `a` must be an integer while `additionalProperties`
demands a string: a key matching both is checked against both. -/
def exDoubleSchema : JVal :=
  JVal.obj [("properties", JVal.obj [("a", JVal.obj [("type", JVal.str "integer")])]),
            ("additionalProperties", JVal.obj [("type", JVal.str "string")])]

/-- Schema with a typed property `a` and the default permissive
`additionalProperties`. -/
def exDefaultAPSchema : JVal :=
  JVal.obj [("properties", JVal.obj [("a", JVal.obj [("type", JVal.str "integer")])])]

/-- Tuple-typed `items` (string then integer) with numeric overflow schema. -/
def exTupleSchema : JVal :=
  JVal.obj [("items", JVal.arr [JVal.obj [("type", JVal.str "string")],
                                JVal.obj [("type", JVal.str "integer")]]),
            ("additionalProperties", JVal.obj [("type", JVal.str "number")])]

/-- Tuple-typed `items` (string then integer) with `additionalProperties: false`. -/
def exTupleFalseSchema : JVal :=
  JVal.obj [("items", JVal.arr [JVal.obj [("type", JVal.str "string")],
                                JVal.obj [("type", JVal.str "integer")]]),
            ("additionalProperties", JVal.bool false)]

/-- Object schema whose property `b` requires the enclosing object to match a
nested schema demanding `a` to be a string. -/
def exRequiresSchema : JVal :=
  JVal.obj [("type", JVal.str "object"),
            ("properties", JVal.obj
              [("a", JVal.obj []),
               ("b", JVal.obj [("requires", JVal.obj
                 [("type", JVal.str "object"),
                  ("properties", JVal.obj
                    [("a", JVal.obj [("type", JVal.str "string")])])])])])]

/-- Schema using the schema form of `requires` at the document root. -/
def exRootRequiresSchema : JVal :=
  JVal.obj [("requires", JVal.obj [("type", JVal.str "object")])]

/-- Object schema whose nested property sub-schema declares `minimum: 5`. -/
def exNestedMinSchema : JVal :=
  JVal.obj [("type", JVal.str "object"),
            ("properties", JVal.obj
              [("a", JVal.obj [("type", JVal.str "integer"),
                               ("minimum", JVal.int 5)])])]

/-- Schema declaring both a failing `type` and an unsupported `minimum`. -/
def exMinTypeSchema : JVal :=
  JVal.obj [("type", JVal.str "string"), ("minimum", JVal.int 5)]

/-- Root state for a schema declaring only `minimum: 5`. -/
def exStMin : St :=
  St.mk [(JVal.obj [("minimum", JVal.int 5)], "schema")] [(JVal.int 3, "object")]

/-- Schema declaring `enum: [1, 2, 3]`. -/
def exEnumSchema : JVal :=
  JVal.obj [("enum", JVal.arr [JVal.int 1, JVal.int 2, JVal.int 3])]

theorem popSchema_pushSchema (s : JVal) (p : String) (st : St) :
    popSchema (pushSchema s p st) = st := rfl

theorem popObj_pushObj (v : JVal) (p : String) (st : St) :
    popObj (pushObj v p st) = st := rfl

theorem popObj_popSchema_push (x : JVal) (px : String) (s : JVal) (ps : String)
    (st : St) : popObj (popSchema (pushObj x px (pushSchema s ps st))) = st := rfl

theorem popSchema_popObj_push (x : JVal) (px : String) (s : JVal) (ps : String)
    (st : St) : popSchema (popObj (pushObj x px (pushSchema s ps st))) = st := rfl

theorem thenDo_ok {r : VRes} {f : St → VRes} {st2 : St}
    (h : thenDo r f = (Except.ok (), st2)) :
    ∃ stm, r = (Except.ok (), stm) ∧ f stm = (Except.ok (), st2) := by
  rcases r with ⟨res, str⟩
  cases res with
  | ok u => cases u; exact ⟨str, rfl, h⟩
  | error e => simp [thenDo] at h

theorem pres_of_state {f : St → VRes} (hs : ∀ st, (f st).2 = st) : PresOk f := by
  intro st st2 h
  have := hs st
  rw [h] at this
  exact this

theorem vEnum_state (st : St) : (vEnum st).2 = st := by
  unfold vEnum
  repeat' split
  all_goals rfl

theorem vFormat_state (st : St) : (vFormat st).2 = st := rfl

theorem vPattern_state (st : St) : (vPattern st).2 = st := by
  unfold vPattern
  repeat' split
  all_goals rfl

theorem vReportUnsupported_state (st : St) : (vReportUnsupported st).2 = st := by
  simp only [vReportUnsupported]
  repeat' split
  all_goals rfl

theorem vRequires_state (visit : St → VRes) (st : St) :
    (vRequires visit st).2 = st := by
  unfold vRequires
  repeat' split
  all_goals rfl

theorem vAPFalseLoop_state (props : List (String × JVal)) :
    ∀ kvs st, (vAPFalseLoop props kvs st).2 = st := by
  intro kvs
  induction kvs with
  | nil => intro st; rfl
  | cons kv rest ih =>
    intro st
    rcases kv with ⟨k, v⟩
    unfold vAPFalseLoop
    split
    · exact ih st
    · rfl


theorem pair_eq_ok_snd {e : Except PyExn Unit} {st st2 : St}
    (h : (e, st) = (Except.ok (), st2)) : st2 = st := by
  injection h with h1 h2
  exact h2.symm

theorem pair_err_false {e : PyExn} {st st2 : St}
    (h : (Except.error e, st) = (Except.ok (), st2)) : False := by
  injection h with h1 h2
  exact Except.noConfusion h1

theorem vTypeLoop_pres {visit : St → VRes} (hv : PresOk visit) :
    ∀ tys st st2, vTypeLoop visit tys st = (Except.ok (), st2) → st2 = st := by
  intro tys
  induction tys with
  | nil =>
    intro st st2 h
    exact (pair_err_false h).elim
  | cons ty rest ih =>
    intro st st2 h
    cases ty with
    | str t =>
      simp only [vTypeLoop] at h
      by_cases h1 : (t == "any") = true
      · simp only [h1, if_true] at h
        exact pair_eq_ok_snd h
      · simp only [h1, if_false] at h
        by_cases h2 : (t == "boolean") = true
        · simp only [h2, if_true] at h
          rcases hm : topObj st with _ | b | n | q | s | xs | kvs <;>
              simp only [hm, reportError] at h
          · exact (pair_err_false h).elim
          · exact pair_eq_ok_snd h
          all_goals exact (pair_err_false h).elim
        · simp only [h2, if_false] at h
          rcases htm : typeMap t with _ | cls <;> simp only [htm] at h
          · exact (pair_err_false h).elim
          · by_cases h3 : isInstance (topObj st) cls = true
            · simp only [h3, if_true] at h
              exact pair_eq_ok_snd h
            · simp only [h3, if_false] at h
              exact ih st st2 h
    | obj kvs =>
      rcases hvv : visit (pushSchema (JVal.obj kvs) ".type" st) with ⟨res, stv⟩
      simp only [vTypeLoop, hvv] at h
      cases res with
      | ok u =>
        cases u
        have e1 : stv = pushSchema (JVal.obj kvs) ".type" st := hv _ _ hvv
        have e2 : st2 = popSchema stv := pair_eq_ok_snd h
        rw [e2, e1, popSchema_pushSchema]
      | error e => exact (pair_err_false h).elim
    | null => exact (pair_err_false (by simpa only [vTypeLoop] using h)).elim
    | bool b => exact (pair_err_false (by simpa only [vTypeLoop] using h)).elim
    | int n => exact (pair_err_false (by simpa only [vTypeLoop] using h)).elim
    | float q => exact (pair_err_false (by simpa only [vTypeLoop] using h)).elim
    | arr xs => exact (pair_err_false (by simpa only [vTypeLoop] using h)).elim

theorem vType_pres {visit : St → VRes} (hv : PresOk visit) : PresOk (vType visit) := by
  intro st st2 h
  unfold vType at h
  rcases ht : schemaTypeE (topSchema st) with e | tys <;> rw [ht] at h
  · exact (pair_err_false h).elim
  · cases tys with
    | nil => exact (pair_err_false h).elim
    | cons ty rest => exact vTypeLoop_pres hv (ty :: rest) st st2 h

theorem vPropsLoop_pres {visit : St → VRes} (hv : PresOk visit) :
    ∀ props st st2, vPropsLoop visit props st = (Except.ok (), st2) → st2 = st := by
  intro props
  induction props with
  | nil =>
    intro st st2 h
    exact pair_eq_ok_snd h
  | cons kv rest ih =>
    intro st st2 h
    rcases kv with ⟨prop, psJson⟩
    rcases hs : mkSchemaE psJson with e | ps
    · simp only [vPropsLoop, hs] at h
      exact (pair_err_false h).elim
    · rcases hg : getField (topObj st) prop with _ | v
      · rcases ho : schemaOptionalE ps with e | b
        · simp only [vPropsLoop, hs, hg, ho] at h
          exact (pair_err_false h).elim
        · cases b with
          | true =>
            simp only [vPropsLoop, hs, hg, ho] at h
            have := ih _ _ h
            rw [this, popSchema_pushSchema]
          | false =>
            simp only [vPropsLoop, hs, hg, ho, reportError] at h
            exact (pair_err_false h).elim
      · rcases hvv : visit (pushObj v ("." ++ prop) (pushSchema ps (".properties." ++ prop) st))
          with ⟨res, stv⟩
        simp only [vPropsLoop, hs, hg, hvv] at h
        cases res with
        | ok u =>
          cases u
          have e1 : stv = pushObj v ("." ++ prop) (pushSchema ps (".properties." ++ prop) st) :=
            hv _ _ hvv
          have := ih _ _ h
          rw [this, e1, popSchema_popObj_push]
        | error e => exact (pair_err_false h).elim

theorem vProperties_pres {visit : St → VRes} (hv : PresOk visit) :
    PresOk (vProperties visit) := by
  intro st st2 h
  unfold vProperties at h
  rcases hp : schemaPropertiesE (topSchema st) with e | props <;> rw [hp] at h
  · exact (pair_err_false h).elim
  · exact vPropsLoop_pres hv props st st2 h

theorem vAPLoop_pop {visit : St → VRes} (hv : PresOk visit) :
    ∀ kvs st st2, vAPLoop visit kvs st = (Except.ok (), st2) → st2 = popSchema st := by
  intro kvs
  induction kvs with
  | nil =>
    intro st st2 h
    exact pair_eq_ok_snd h
  | cons kv rest ih =>
    intro st st2 h
    rcases kv with ⟨k, v⟩
    rcases hvv : visit (pushObj v ("." ++ k) st) with ⟨res, stv⟩
    simp only [vAPLoop, hvv] at h
    cases res with
    | ok u =>
      cases u
      have e1 : stv = pushObj v ("." ++ k) st := hv _ _ hvv
      have := ih _ _ h
      rw [this, e1, popObj_pushObj]
    | error e => exact (pair_err_false h).elim

theorem vAdditionalProperties_pres {visit : St → VRes} (hv : PresOk visit) :
    PresOk (vAdditionalProperties visit) := by
  intro st st2 h
  rcases ha : schemaAdditionalPropsE (topSchema st) with e | ap
  · simp only [vAdditionalProperties, ha] at h
    exact (pair_err_false h).elim
  · rcases ap with _ | b | n | q | s | xs | kvs
    case bool =>
      cases b with
      | false =>
        rcases hp : schemaPropertiesE (topSchema st) with e | props <;>
            simp only [vAdditionalProperties, ha, hp] at h
        · exact (pair_err_false h).elim
        · have := vAPFalseLoop_state props (objFields (topObj st)) st
          rw [h] at this
          exact this
      | true =>
        simp only [vAdditionalProperties, ha] at h
        have := vAPLoop_pop hv _ _ _ h
        rw [this, popSchema_pushSchema]
    all_goals
      simp only [vAdditionalProperties, ha] at h
    all_goals
      have := vAPLoop_pop hv _ _ _ h
    all_goals
      rw [this, popSchema_pushSchema]


theorem vItemsHomLoop_pop {visit : St → VRes} (hv : PresOk visit) :
    ∀ xs i st st2, vItemsHomLoop visit i xs st = (Except.ok (), st2) →
      st2 = popSchema st := by
  intro xs
  induction xs with
  | nil =>
    intro i st st2 h
    exact pair_eq_ok_snd h
  | cons x rest ih =>
    intro i st st2 h
    rcases hvv : visit (pushObj x ("[" ++ toString i ++ "]") st) with ⟨res, stv⟩
    simp only [vItemsHomLoop, hvv] at h
    cases res with
    | ok u =>
      cases u
      have e1 : stv = pushObj x ("[" ++ toString i ++ "]") st := hv _ _ hvv
      have := ih _ _ _ h
      rw [this, e1, popObj_pushObj]
    | error e => exact (pair_err_false h).elim

theorem vItemsTupleLoop_pres {visit : St → VRes} (hv : PresOk visit) :
    ∀ xs ss ap i st st2, vItemsTupleLoop visit ap i xs ss st = (Except.ok (), st2) →
      st2 = st := by
  intro xs
  induction xs with
  | nil =>
    intro ss ap i st st2 h
    exact pair_eq_ok_snd h
  | cons x rest ih =>
    intro ss ap i st st2 h
    cases ss with
    | nil =>
      simp only [vItemsTupleLoop] at h
      rcases hmk : mkSchemaE ap with e | sch <;> simp only [hmk] at h
      · exact (pair_err_false h).elim
      · rcases hvv : visit (pushObj x ("[" ++ toString i ++ "]")
            (pushSchema sch ".additionalProperties" st)) with ⟨res, stv⟩
        simp only [hvv] at h
        cases res with
        | ok u =>
          cases u
          have e1 := hv _ _ hvv
          have := ih _ _ _ _ _ h
          rw [this, e1, popObj_popSchema_push]
        | error e => exact (pair_err_false h).elim
    | cons s stail =>
      simp only [vItemsTupleLoop] at h
      rcases hmk : mkSchemaE s with e | sch <;> simp only [hmk] at h
      · exact (pair_err_false h).elim
      · rcases hvv : visit (pushObj x ("[" ++ toString i ++ "]")
            (pushSchema sch ("items[" ++ toString i ++ "]") st)) with ⟨res, stv⟩
        simp only [hvv] at h
        cases res with
        | ok u =>
          cases u
          have e1 := hv _ _ hvv
          have := ih _ _ _ _ _ h
          rw [this, e1, popObj_popSchema_push]
        | error e => exact (pair_err_false h).elim

theorem vItems_pres {visit : St → VRes} (hv : PresOk visit) : PresOk (vItems visit) := by
  intro st st2 h
  rcases hi : schemaItemsE (topSchema st) with e | items
  · simp only [vItems, hi] at h
    exact (pair_err_false h).elim
  · by_cases hemp : pyEq items (JVal.obj []) = true
    · simp only [vItems, hi, hemp, if_true] at h
      exact pair_eq_ok_snd h
    · rcases items with _ | b | n | q | s | schemas | kvs
      · simp only [vItems, hi, hemp, if_false] at h
        exact (pair_err_false h).elim
      · simp only [vItems, hi, hemp, if_false] at h
        exact (pair_err_false h).elim
      · simp only [vItems, hi, hemp, if_false] at h
        exact (pair_err_false h).elim
      · simp only [vItems, hi, hemp, if_false] at h
        exact (pair_err_false h).elim
      · simp only [vItems, hi, hemp, if_false] at h
        exact (pair_err_false h).elim
      · simp only [vItems, hi, hemp, if_false] at h
        by_cases hlt : (arrElems (topObj st)).length < schemas.length
        · simp only [hlt, if_true, reportError] at h
          exact (pair_err_false h).elim
        · simp only [hlt, if_false] at h
          by_cases hne : (arrElems (topObj st)).length ≠ schemas.length
          · rw [if_pos hne] at h
            rcases ha : schemaAdditionalPropsE (topSchema st) with e | ap <;>
                rw [ha] at h
            · exact (pair_err_false h).elim
            · rcases ap with _ | b | n | q | s | xs | kvs
              · exact vItemsTupleLoop_pres hv _ _ _ _ _ _ h
              · cases b with
                | false => exact (pair_err_false h).elim
                | true => exact vItemsTupleLoop_pres hv _ _ _ _ _ _ h
              · exact vItemsTupleLoop_pres hv _ _ _ _ _ _ h
              · exact vItemsTupleLoop_pres hv _ _ _ _ _ _ h
              · exact vItemsTupleLoop_pres hv _ _ _ _ _ _ h
              · exact vItemsTupleLoop_pres hv _ _ _ _ _ _ h
              · exact vItemsTupleLoop_pres hv _ _ _ _ _ _ h
          · rw [if_neg hne] at h
            rcases ha : schemaAdditionalPropsE (topSchema st) with e | ap <;>
                rw [ha] at h
            · exact (pair_err_false h).elim
            · exact vItemsTupleLoop_pres hv _ _ _ _ _ _ h
      · simp only [vItems, hi, hemp, if_false] at h
        have := vItemsHomLoop_pop hv _ _ _ _ h
        rw [this, popSchema_pushSchema]

theorem scalarChecks_state (st : St) :
    (thenDo (vEnum st) fun stC => thenDo (vFormat stC) vPattern).2 = st := by
  rcases he : vEnum st with ⟨res, ste⟩
  have hes : ste = st := by
    have := vEnum_state st
    rw [he] at this
    exact this
  cases res with
  | error e =>
    simp only [thenDo]
    exact hes
  | ok u =>
    cases u
    simp only [thenDo]
    rcases hf : vFormat ste with ⟨resf, stf⟩
    have hfs : stf = ste := by
      have := vFormat_state ste
      rw [hf] at this
      exact this
    cases resf with
    | error e =>
      simp only [thenDo]
      exact hfs.trans hes
    | ok u2 =>
      cases u2
      simp only [thenDo]
      rw [vPattern_state stf]
      exact hfs.trans hes

theorem vBranch_pres {visit : St → VRes} (hv : PresOk visit) (o : JVal) :
    PresOk (vBranch visit o) := by
  intro st st2 h
  cases o
  case arr xs =>
    simp only [vBranch] at h
    exact vItems_pres hv _ _ h
  case obj kvs =>
    simp only [vBranch] at h
    obtain ⟨stm, h1, h2⟩ := thenDo_ok h
    have e1 : stm = st := vProperties_pres hv _ _ h1
    have e2 : st2 = stm := vAdditionalProperties_pres hv _ _ h2
    rw [e2, e1]
  all_goals
    simp only [vBranch] at h
    have := scalarChecks_state st
    rw [h] at this
    exact this

theorem visitOnce_pres {visit : St → VRes} (hv : PresOk visit) :
    PresOk (visitOnce visit) := by
  intro st st2 h
  simp only [visitOnce] at h
  obtain ⟨stA, h1, h⟩ := thenDo_ok h
  obtain ⟨stB, h2, h⟩ := thenDo_ok h
  obtain ⟨stD, h3, h⟩ := thenDo_ok h
  have eA : stA = st := vType_pres hv _ _ h1
  have eB : stB = stA := by
    have := vRequires_state visit stA
    rw [h2] at this
    exact this
  have eD : stD = stB := vBranch_pres hv (topObj st) _ _ h3
  have e2 : st2 = stD := by
    have := vReportUnsupported_state stD
    rw [h] at this
    exact this
  rw [e2, eD, eB, eA]

theorem pyValidate_pres : ∀ n, PresOk (pyValidate n) := by
  intro n
  induction n with
  | zero =>
    intro st st2 h
    exact (pair_err_false h).elim
  | succ n ih =>
    intro st st2 h
    exact visitOnce_pres ih st st2 h

theorem vReportUnsupported_ok_iff (st : St) :
    (vReportUnsupported st).1 = Except.ok () ↔
      declaresUnsupported (topSchema st) = false := by
  simp only [vReportUnsupported, declaresUnsupported]
  repeat' split
  all_goals simp_all

theorem pyValidate_ne_ok_of_unsupported {n : Nat} {st st2 : St} {r : Except PyExn Unit}
    (hd : declaresUnsupported (topSchema st) = true)
    (hrun : pyValidate n st = (r, st2)) : r ≠ Except.ok () := by
  intro hok
  subst hok
  cases n with
  | zero => exact (pair_err_false hrun).elim
  | succ n =>
    have hrun2 : visitOnce (pyValidate n) st = (Except.ok (), st2) := hrun
    simp only [visitOnce] at hrun2
    obtain ⟨stA, h1, hrun2⟩ := thenDo_ok hrun2
    obtain ⟨stB, h2, hrun2⟩ := thenDo_ok hrun2
    obtain ⟨stD, h3, hrun2⟩ := thenDo_ok hrun2
    have eA : stA = st := vType_pres (pyValidate_pres n) _ _ h1
    have eB : stB = stA := by
      have := vRequires_state (pyValidate n) stA
      rw [h2] at this
      exact this
    have eD : stD = stB := vBranch_pres (pyValidate_pres n) (topObj st) _ _ h3
    have hok2 : (vReportUnsupported stD).1 = Except.ok () := by
      rw [hrun2]
    rw [eD, eB, eA] at hok2
    have := (vReportUnsupported_ok_iff st).1 hok2
    rw [hd] at this
    exact Bool.noConfusion this

theorem vPattern_nomatch {st : St} {p s : String}
    (hp : schemaPatternE (topSchema st) = Except.ok (some p))
    (ho : topObj st = JVal.str s)
    (hm : reMatch p s = false) :
    vPattern st = (Except.error PyExn.hostError, st) := by
  simp [vPattern, hp, ho, hm]

theorem vPattern_match {st : St} {p s : String}
    (hp : schemaPatternE (topSchema st) = Except.ok (some p))
    (ho : topObj st = JVal.str s)
    (hm : reMatch p s = true) :
    vPattern st = (Except.ok (), st) := by
  simp [vPattern, hp, ho, hm]

theorem vRequires_root {visit : St → VRes} {st : St} {req : JVal}
    (hr : schemaRequiresE (topSchema st) = Except.ok req)
    (hne : pyEq req (JVal.obj []) = false)
    (hlen : st.objStack.length < 2) :
    vRequires visit st = reportError ".requires" st := by
  simp [vRequires, hr, hne, hlen]

theorem vRequires_schema_form {visit : St → VRes} {st : St} {kvs : List (String × JVal)}
    (hr : schemaRequiresE (topSchema st) = Except.ok (JVal.obj kvs))
    (hne : pyEq (JVal.obj kvs) (JVal.obj []) = false)
    (hlen : ¬ st.objStack.length < 2) :
    vRequires visit st =
      ((visit (St.mk ((JVal.obj kvs, ".requires") :: st.schemaStack)
          st.objStack.tail)).1, st) := by
  simp [vRequires, hr, hne, hlen]

theorem vItems_short {visit : St → VRes} {st : St} {schemas xs : List JVal}
    (hi : schemaItemsE (topSchema st) = Except.ok (JVal.arr schemas))
    (ho : topObj st = JVal.arr xs)
    (hlt : xs.length < schemas.length) :
    vItems visit st = reportError ".items" st := by
  have hne : pyEq (JVal.arr schemas) (JVal.obj []) = false := by
    simp [pyEq, pyAtomEq, pyNumVal]
  simp [vItems, hi, ho, hne, arrElems, hlt]

theorem vItems_mismatch {visit : St → VRes} {st : St} {schemas xs : List JVal}
    (hi : schemaItemsE (topSchema st) = Except.ok (JVal.arr schemas))
    (ho : topObj st = JVal.arr xs)
    (hge : ¬ xs.length < schemas.length)
    (hne : xs.length ≠ schemas.length)
    (hap : schemaAdditionalPropsE (topSchema st) = Except.ok (JVal.bool false)) :
    vItems visit st = reportError ".items" st := by
  have hemp : pyEq (JVal.arr schemas) (JVal.obj []) = false := by
    simp [pyEq, pyAtomEq, pyNumVal]
  simp [vItems, hi, ho, hemp, arrElems, hge, hne, hap]

theorem vAPFalseLoop_eq (props : List (String × JVal)) :
    ∀ kvs st, vAPFalseLoop props kvs st =
      (match kvs.find? (fun kv => (lookupField props kv.1).isNone) with
       | none => (Except.ok (), st)
       | some _ => reportError ".additionalProperties" st) := by
  intro kvs
  induction kvs with
  | nil => intro st; rfl
  | cons kv rest ih =>
    intro st
    rcases kv with ⟨k, v⟩
    by_cases hk : (lookupField props k).isSome = true
    · have hkn : ((lookupField props k).isNone : Bool) = false := by
        cases hh : lookupField props k with
        | none => rw [hh] at hk; simp at hk
        | some w => rfl
      rw [List.find?_cons_of_neg]
      · simp only [vAPFalseLoop]
        rw [if_pos hk]
        exact ih st
      · simp [hkn]
    · have hkn : ((lookupField props k).isNone : Bool) = true := by
        cases hh : lookupField props k with
        | none => rfl
        | some w => rw [hh] at hk; simp at hk
      rw [List.find?_cons_of_pos]
      · simp only [vAPFalseLoop]
        rw [if_neg hk]
      · simp [hkn]

theorem vAdditionalProperties_false {visit : St → VRes} {st : St}
    {props : List (String × JVal)}
    (hap : schemaAdditionalPropsE (topSchema st) = Except.ok (JVal.bool false))
    (hp : schemaPropertiesE (topSchema st) = Except.ok props) :
    vAdditionalProperties visit st =
      (match (objFields (topObj st)).find? (fun kv => (lookupField props kv.1).isNone) with
       | none => (Except.ok (), st)
       | some _ => reportError ".additionalProperties" st) := by
  simp only [vAdditionalProperties, hap, hp]
  exact vAPFalseLoop_eq props (objFields (topObj st)) st

theorem vAPLoop_ok_iff (n : Nat) :
    ∀ kvs st, (vAPLoop (pyValidate n) kvs st).1 = Except.ok () ↔
      ∀ kv ∈ kvs, (pyValidate n (pushObj kv.2 ("." ++ kv.1) st)).1 = Except.ok () := by
  intro kvs
  induction kvs with
  | nil =>
    intro st
    simp [vAPLoop]
  | cons kv rest ih =>
    intro st
    rcases kv with ⟨k, v⟩
    rcases hvv : pyValidate n (pushObj v ("." ++ k) st) with ⟨res, stv⟩
    cases res with
    | ok u =>
      cases u
      have e1 : stv = pushObj v ("." ++ k) st := pyValidate_pres n _ _ hvv
      subst e1
      simp only [vAPLoop, hvv, popObj_pushObj]
      rw [ih st]
      simp [List.forall_mem_cons, hvv]
    | error e =>
      simp only [vAPLoop, hvv]
      simp [List.forall_mem_cons, hvv]

theorem vAdditionalProperties_schema_iff {n : Nat} {st : St}
    {apkvs : List (String × JVal)}
    (hap : schemaAdditionalPropsE (topSchema st) = Except.ok (JVal.obj apkvs)) :
    (vAdditionalProperties (pyValidate n) st).1 = Except.ok () ↔
      ∀ kv ∈ objFields (topObj st),
        (pyValidate n (pushObj kv.2 ("." ++ kv.1)
          (pushSchema (JVal.obj apkvs) ".additionalProperties" st))).1 = Except.ok () := by
  simp only [vAdditionalProperties, hap]
  exact vAPLoop_ok_iff n (objFields (topObj st))
    (pushSchema (JVal.obj apkvs) ".additionalProperties" st)

/-- C1: the spec claims format `date-time` accepts "2021-01-02T03:04:05Z" and
rejects "2021-01-02" with a validation failure carrying suffix `.format`,
without raising the engine-fatal unsupported-feature condition on success.
The code rejects the short string exactly as claimed, but on the valid string
the unsupported-format fallback — attached as the `else` of the `regex` test
only — raises `NotImplementedError`, so every successful `date-time` parse
still aborts the run with the engine-fatal condition. -/
theorem claim_C1 :
    validateDoc 3 exFormatSchema (JVal.str "2021-01-02T03:04:05Z") =
        Except.error (PyExn.notImplemented "format is not supported")
    ∧ validateDoc 3 exFormatSchema (JVal.str "2021-01-02") =
        Except.error (PyExn.validationError "object" "schema.format") :=
  ⟨rfl, rfl⟩

/-- C2: for the type alternation `["string", "number"]` the claim's accepted
examples "x" and 3 pass and null and the empty array fail with suffix `.type`,
but the claimed rejection of `true` fails on the code: the host treats `bool`
as a subclass of `int`, so `isinstance(True, NUMERIC_TYPES)` holds and the
`number` alternative matches `true`. -/
theorem claim_C2 :
    validateDoc 2 exTypeListSchema (JVal.str "x") = Except.ok ()
    ∧ validateDoc 2 exTypeListSchema (JVal.int 3) = Except.ok ()
    ∧ validateDoc 2 exTypeListSchema JVal.null =
        Except.error (PyExn.validationError "object" "schema.type")
    ∧ validateDoc 2 exTypeListSchema (JVal.arr []) =
        Except.error (PyExn.validationError "object" "schema.type")
    ∧ validateDoc 2 exTypeListSchema (JVal.bool true) = Except.ok () :=
  ⟨rfl, rfl, rfl, rfl, rfl⟩

/-- C3: the claim says a declared pattern that fails to match a string at
position 0 raises the ordinary validation failure with suffix `.pattern`.  On
the code the non-matching branch calls `_report_error` with the misspelled
keyword `sechema_suffic`, so the run dies with a host TypeError instead
(modelled as `hostError`); matching strings and non-string values do pass as
claimed.  Stated for the metacharacter-free pattern fragment `reMatch`
models. -/
theorem claim_C3 :
    (∀ (st : St) (p s : String),
        schemaPatternE (topSchema st) = Except.ok (some p) →
        topObj st = JVal.str s →
        reMatch p s = false →
        vPattern st = (Except.error PyExn.hostError, st))
    ∧ (∀ (st : St) (p s : String),
        schemaPatternE (topSchema st) = Except.ok (some p) →
        topObj st = JVal.str s →
        reMatch p s = true →
        vPattern st = (Except.ok (), st))
    ∧ validateDoc 2 exPatternSchema (JVal.str "b") = Except.error PyExn.hostError
    ∧ validateDoc 2 exPatternSchema (JVal.str "abc") = Except.ok ()
    ∧ validateDoc 2 exPatternSchema (JVal.int 7) = Except.ok () :=
  ⟨fun _ _ _ hp ho hm => vPattern_nomatch hp ho hm,
   fun _ _ _ hp ho hm => vPattern_match hp ho hm,
   rfl, rfl, rfl⟩

/-- Witness for C3 at the pattern "a" against the string "b". -/
theorem claim_C3_witness :
    vPattern (St.mk [(exPatternSchema, "schema")] [(JVal.str "b", "object")]) =
      (Except.error PyExn.hostError,
        St.mk [(exPatternSchema, "schema")] [(JVal.str "b", "object")]) :=
  claim_C3.1 _ "a" "b" rfl rfl rfl

/-- C4 (amended): every check pops the frames it pushed on every successful
exit, so a visit that returns success leaves both stacks exactly as it found
them; on a raising exit the frames pushed by the failing check remain on the
stacks (the exception propagates without unwinding), which no caller observes
because each top-level call resets both stacks. -/
theorem claim_C4 :
    ∀ (fuel : Nat) (st st2 : St),
      pyValidate fuel st = (Except.ok (), st2) → st2 = st :=
  fun fuel st st2 h => pyValidate_pres fuel st st2 h

/-- Counterexample for C4 as stated: validating the empty object against a
schema with a required property raises the missing-property failure, and after
the raise the schema stack still holds the pushed `.properties.a` frame (depth
2 instead of the depth 1 it started with): the frame is not popped on the
failing exit path. -/
theorem claim_C4_counterexample :
    (pyValidate 3 exStC4).1 =
        Except.error (PyExn.validationError "object" "schema.properties.a.optional")
    ∧ (pyValidate 3 exStC4).2.schemaStack.length = 2
    ∧ exStC4.schemaStack.length = 1 :=
  ⟨rfl, rfl, rfl⟩

/-- Witness for C4 (amended) on a successful run of the empty schema. -/
theorem claim_C4_witness :
    (pyValidate 1 (St.mk [(JVal.obj [], "schema")] [(JVal.null, "object")])).2 =
      St.mk [(JVal.obj [], "schema")] [(JVal.null, "object")] :=
  claim_C4 1 _ _ rfl

/-- C5: the claim says `{"type":"boolean"}` accepts exactly the two boolean
constants (proved below for every value), and that `{"type":"number"}` and
`{"type":"integer"}` reject `true`/`false`.  The latter fails on the code:
`isinstance(True, int)` holds in the host, so both accept both booleans. -/
theorem claim_C5 :
    (∀ v : JVal, validateDoc 2 exBoolSchema v =
        (if isBoolVal v then Except.ok ()
         else Except.error (PyExn.validationError "object" "schema.type")))
    ∧ validateDoc 2 exIntSchema (JVal.bool true) = Except.ok ()
    ∧ validateDoc 2 exIntSchema (JVal.bool false) = Except.ok ()
    ∧ validateDoc 2 exNumSchema (JVal.bool true) = Except.ok ()
    ∧ validateDoc 2 exNumSchema (JVal.bool false) = Except.ok () :=
  ⟨fun v => by cases v <;> rfl, rfl, rfl, rfl, rfl⟩

/-- C6: when `additionalProperties` is not the literal `false`, every key of
the object — including keys already validated against a schema named in
`properties`, which therefore get validated twice — is validated against the
`additionalProperties` sub-schema (the iff below, plus the concrete run in
which the key `a` passes its named integer schema and then fails the
additional string schema at `schema.additionalProperties.type`); when it is
the literal `false`, the first key absent from `properties` raises the
unknown-property failure with suffix `.additionalProperties`. -/
theorem claim_C6 :
    (∀ (visit : St → VRes) (st : St) (props : List (String × JVal)),
        schemaAdditionalPropsE (topSchema st) = Except.ok (JVal.bool false) →
        schemaPropertiesE (topSchema st) = Except.ok props →
        vAdditionalProperties visit st =
          (match (objFields (topObj st)).find?
              (fun kv => (lookupField props kv.1).isNone) with
           | none => (Except.ok (), st)
           | some _ => reportError ".additionalProperties" st))
    ∧ (∀ (n : Nat) (st : St) (apkvs : List (String × JVal)),
        schemaAdditionalPropsE (topSchema st) = Except.ok (JVal.obj apkvs) →
        ((vAdditionalProperties (pyValidate n) st).1 = Except.ok () ↔
          ∀ kv ∈ objFields (topObj st),
            (pyValidate n (pushObj kv.2 ("." ++ kv.1)
              (pushSchema (JVal.obj apkvs) ".additionalProperties" st))).1 =
                Except.ok ()))
    ∧ validateDoc 4 exAPFalseSchema (JVal.obj [("a", JVal.int 1), ("b", JVal.int 2)]) =
        Except.error (PyExn.validationError "object" "schema.additionalProperties")
    ∧ validateDoc 4 exDoubleSchema (JVal.obj [("a", JVal.int 1)]) =
        Except.error (PyExn.validationError "object.a" "schema.additionalProperties.type")
    ∧ validateDoc 4 exDefaultAPSchema (JVal.obj [("a", JVal.int 1), ("b", JVal.arr [])]) =
        Except.ok () :=
  ⟨fun _ _ _ hap hp => vAdditionalProperties_false hap hp,
   fun _ _ _ hap => vAdditionalProperties_schema_iff hap,
   rfl, rfl, rfl⟩

/-- Witness for C6: the disallowing mode reports the unknown key `b`. -/
theorem claim_C6_witness :
    vAdditionalProperties (pyValidate 2) (St.mk [(exAPFalseSchema, "schema")]
        [(JVal.obj [("a", JVal.int 1), ("b", JVal.int 2)], "object")]) =
      reportError ".additionalProperties" (St.mk [(exAPFalseSchema, "schema")]
        [(JVal.obj [("a", JVal.int 1), ("b", JVal.int 2)], "object")]) :=
  claim_C6.1 (pyValidate 2) _ [("a", JVal.obj [])] rfl rfl

/-- C7: tuple-typed items.  A document array shorter than the schema list
fails with suffix `.items`; differing lengths with `additionalProperties`
literally `false` fail with suffix `.items`; in-range elements validate
against their positional schema (segment `items[i]`) and elements beyond the
list validate against `additionalProperties` (segment `.additionalProperties`)
when it is not `false`, as the concrete runs show. -/
theorem claim_C7 :
    (∀ (visit : St → VRes) (st : St) (schemas xs : List JVal),
        schemaItemsE (topSchema st) = Except.ok (JVal.arr schemas) →
        topObj st = JVal.arr xs →
        xs.length < schemas.length →
        vItems visit st = reportError ".items" st)
    ∧ (∀ (visit : St → VRes) (st : St) (schemas xs : List JVal),
        schemaItemsE (topSchema st) = Except.ok (JVal.arr schemas) →
        topObj st = JVal.arr xs →
        ¬ xs.length < schemas.length →
        xs.length ≠ schemas.length →
        schemaAdditionalPropsE (topSchema st) = Except.ok (JVal.bool false) →
        vItems visit st = reportError ".items" st)
    ∧ validateDoc 4 exTupleSchema (JVal.arr [JVal.str "a"]) =
        Except.error (PyExn.validationError "object" "schema.items")
    ∧ validateDoc 4 exTupleFalseSchema (JVal.arr [JVal.str "a", JVal.int 1, JVal.int 2]) =
        Except.error (PyExn.validationError "object" "schema.items")
    ∧ validateDoc 4 exTupleSchema
        (JVal.arr [JVal.str "a", JVal.int 1, JVal.float (5 / 2)]) = Except.ok ()
    ∧ validateDoc 4 exTupleSchema (JVal.arr [JVal.int 5, JVal.int 1]) =
        Except.error (PyExn.validationError "object[0]" "schemaitems[0].type")
    ∧ validateDoc 4 exTupleSchema (JVal.arr [JVal.str "a", JVal.int 1, JVal.str "z"]) =
        Except.error (PyExn.validationError "object[2]" "schema.additionalProperties.type") :=
  ⟨fun _ _ _ _ hi ho hlt => vItems_short hi ho hlt,
   fun _ _ _ _ hi ho hge hne hap => vItems_mismatch hi ho hge hne hap,
   rfl, rfl, rfl, rfl, rfl⟩

/-- Witness for C7 on the too-short document array. -/
theorem claim_C7_witness :
    vItems (pyValidate 2) (St.mk [(exTupleSchema, "schema")]
        [(JVal.arr [JVal.str "a"], "object")]) =
      reportError ".items" (St.mk [(exTupleSchema, "schema")]
        [(JVal.arr [JVal.str "a"], "object")]) :=
  claim_C7.1 (pyValidate 2) _
    [JVal.obj [("type", JVal.str "string")], JVal.obj [("type", JVal.str "integer")]]
    [JVal.str "a"] rfl rfl (by decide)

/-- C8: the schema form of `requires` validates the entire enclosing object
(the frame immediately above the current one) by an isolated visit on a
snapshot: the object stack minus its innermost frame and a copy of the schema
stack with the nested schema pushed as a `.requires` frame; the snapshot's
final state is discarded while its exception, carrying the inner run's own
path expressions, propagates.  With no enclosing object (fewer than two object
frames, i.e. at the document root) the failure has suffix `.requires`. -/
theorem claim_C8 :
    (∀ (visit : St → VRes) (st : St) (req : JVal),
        schemaRequiresE (topSchema st) = Except.ok req →
        pyEq req (JVal.obj []) = false →
        st.objStack.length < 2 →
        vRequires visit st = reportError ".requires" st)
    ∧ (∀ (visit : St → VRes) (st : St) (kvs : List (String × JVal)),
        schemaRequiresE (topSchema st) = Except.ok (JVal.obj kvs) →
        pyEq (JVal.obj kvs) (JVal.obj []) = false →
        ¬ st.objStack.length < 2 →
        vRequires visit st =
          ((visit (St.mk ((JVal.obj kvs, ".requires") :: st.schemaStack)
              st.objStack.tail)).1, st))
    ∧ validateDoc 6 exRequiresSchema (JVal.obj [("a", JVal.int 1), ("b", JVal.int 2)]) =
        Except.error (PyExn.validationError "object.a"
          "schema.properties.b.requires.properties.a.type")
    ∧ validateDoc 6 exRequiresSchema (JVal.obj [("a", JVal.str "x"), ("b", JVal.int 2)]) =
        Except.ok ()
    ∧ validateDoc 3 exRootRequiresSchema (JVal.int 5) =
        Except.error (PyExn.validationError "object" "schema.requires") :=
  ⟨fun _ _ _ hr hne hlen => vRequires_root hr hne hlen,
   fun _ _ _ hr hne hlen => vRequires_schema_form hr hne hlen,
   rfl, rfl, rfl⟩

/-- Witness for C8: `requires` at the document root fails with `.requires`. -/
theorem claim_C8_witness :
    vRequires (pyValidate 1) (St.mk [(exRootRequiresSchema, "schema")]
        [(JVal.int 5, "object")]) =
      reportError ".requires" (St.mk [(exRootRequiresSchema, "schema")]
        [(JVal.int 5, "object")]) :=
  claim_C8.1 (pyValidate 1) _ (JVal.obj [("type", JVal.str "object")])
    rfl rfl (by decide)

/-- C9: a visited schema node that declares an unsupported keyword can never
complete successfully (every completed run of the visit on such a node yields
an error), and when the document passes all structural checks the abort is
specifically the engine-fatal `NotImplementedError` — shown on a nested
sub-schema declaring `minimum: 5` whose document would otherwise pass; the
guard runs after the structural checks, so a failing type check still wins. -/
theorem claim_C9 :
    (∀ (fuel : Nat) (st st2 : St) (r : Except PyExn Unit),
        declaresUnsupported (topSchema st) = true →
        pyValidate fuel st = (r, st2) → r ≠ Except.ok ())
    ∧ validateDoc 4 exNestedMinSchema (JVal.obj [("a", JVal.int 7)]) =
        Except.error (PyExn.notImplemented "minimum is not supported")
    ∧ validateDoc 3 exMinTypeSchema (JVal.int 3) =
        Except.error (PyExn.validationError "object" "schema.type") :=
  ⟨fun _ _ _ _ hd hrun => pyValidate_ne_ok_of_unsupported hd hrun, rfl, rfl⟩

/-- Witness for C9 on a root schema declaring `minimum: 5`. -/
theorem claim_C9_witness :
    declaresUnsupported (topSchema exStMin) = true ∧
      (pyValidate 1 exStMin).1 ≠ Except.ok () :=
  ⟨rfl, claim_C9.1 1 exStMin (pyValidate 1 exStMin).2 (pyValidate 1 exStMin).1 rfl rfl⟩

/-- C10: the enum check compares by host value equality, under which `true`
equals 1: against `enum: [1, 2, 3]` the boolean `true` passes, 2 passes, and
4 fails with suffix `.enum`. -/
theorem claim_C10 :
    validateDoc 2 exEnumSchema (JVal.bool true) = Except.ok ()
    ∧ validateDoc 2 exEnumSchema (JVal.int 2) = Except.ok ()
    ∧ validateDoc 2 exEnumSchema (JVal.int 4) =
        Except.error (PyExn.validationError "object" "schema.enum") :=
  ⟨rfl, rfl, rfl⟩
